import Mathlib

/-!  Verification of the caption-generation pipeline and the Instagram publish
workflow of the backend.  Strings are modelled as lists of characters; Python
string / path primitives used by the code are embedded as executable functions
on `Str`.  Each backend function named in a claim is translated below from its
source file; external effects (the Cohere API, the Instabot subprocess, the
file system, the ORM) appear as explicit parameters.  -/

/-- Strings of the backend are modelled as lists of characters, so that every
definition evaluates by kernel reduction. -/
abbrev Str := List Char

/-- Python `str.strip()`: remove leading and trailing whitespace. -/
def pyStrip (s : Str) : Str :=
  ((s.dropWhile Char.isWhitespace).reverse.dropWhile Char.isWhitespace).reverse

/-- Python `str.lower()` (ASCII case folding, which covers every string the
backend lowercases). -/
def toLowerL (s : Str) : Str := s.map Char.toLower

/-- Helper of `pyWords`: split on whitespace, accumulating the current word in
reverse. -/
def pyWordsAux : Str → Str → List Str
  | [], acc => if acc.isEmpty then [] else [acc.reverse]
  | c :: cs, acc =>
    if c.isWhitespace then
      if acc.isEmpty then pyWordsAux cs [] else acc.reverse :: pyWordsAux cs []
    else pyWordsAux cs (c :: acc)

/-- Python `str.split()` with no argument: split on whitespace runs, dropping
empty pieces. -/
def pyWords (s : Str) : List Str := pyWordsAux s []

/-- Python `str.split('\n')`: split at newlines, keeping empty pieces. -/
def splitLines : Str → List Str
  | [] => [[]]
  | c :: cs =>
    if c = '\n' then [] :: splitLines cs
    else
      match splitLines cs with
      | [] => [[c]]
      | l :: ls => (c :: l) :: ls

/-- Helper of `findSub`: first index at or after `idx` where `needle` starts
in the remaining haystack. -/
def findSubAux (needle : Str) : Str → Nat → Option Nat
  | [], idx => if needle.isEmpty then some idx else none
  | c :: rest, idx =>
    if needle.isPrefixOf (c :: rest) then some idx
    else findSubAux needle rest (idx + 1)

/-- Python `str.find(needle)` restricted to the found case: index of the first
occurrence of `needle`, `none` when absent (Python returns `-1`). -/
def findSub (hay needle : Str) : Option Nat := findSubAux needle hay 0

/-- Python `str.find(needle, start)`: first occurrence at index `≥ start`,
reported as an absolute index. -/
def findSubFrom (hay needle : Str) (start : Nat) : Option Nat :=
  (findSub (hay.drop start) needle).map (· + start)

/-- Python `needle in hay` on strings: substring containment. -/
def containsSub (hay needle : Str) : Bool := (findSub hay needle).isSome

/-- Digit-string reading used by `pyIntParse`: every character must be a
decimal digit and at least one must be present. -/
def pyDigitsToNat (ds : Str) : Option Nat :=
  if ds.isEmpty then none
  else if ds.all Char.isDigit then
    some (ds.foldl (fun acc c => acc * 10 + (c.toNat - '0'.toNat)) 0)
  else none

/-- Python `int(s)` on a string: strip whitespace, accept an optional sign
followed by decimal digits, fail (`ValueError`) otherwise. -/
def pyIntParse (s : Str) : Option Int :=
  match pyStrip s with
  | '-' :: ds => (pyDigitsToNat ds).map (fun n => -(n : Int))
  | '+' :: ds => (pyDigitsToNat ds).map (fun n => (n : Int))
  | ds => (pyDigitsToNat ds).map (fun n => (n : Int))

/-- Python `os.path.join(dir, name)` for a single join: an absolute `name`
wins; otherwise the parts are glued with `/` unless `dir` is empty or already
ends in `/`. -/
def pyJoin (dir name : Str) : Str :=
  if ['/'].isPrefixOf name then name
  else if dir.isEmpty then name
  else if dir.getLast? = some '/' then dir ++ name
  else dir ++ '/' :: name

/-- Python `os.path.basename`: the part after the last `/`. -/
def basenameL (p : Str) : Str :=
  (p.reverse.takeWhile (fun c => c ≠ '/')).reverse

/-- Python `os.path.dirname`: the part before the last `/`, with trailing
slashes stripped unless the head is all slashes. -/
def dirnameL (p : Str) : Str :=
  let head := (p.reverse.dropWhile (fun c => c ≠ '/')).reverse
  if head.isEmpty then []
  else if head.all (fun c => c = '/') then head
  else (head.reverse.dropWhile (fun c => c = '/')).reverse

/-- Helper of `splitExtL`: split a string at its last dot, returning the part
before the dot and the part from the dot on; `none` when no dot occurs. -/
def splitLastDot : Str → Option (Str × Str)
  | [] => none
  | c :: cs =>
    match splitLastDot cs with
    | some (a, b) => some (c :: a, b)
    | none => if c = '.' then some ([], c :: cs) else none

/-- Python `os.path.splitext` on a basename: leading dots never start an
extension; otherwise split at the last dot. -/
def splitExtL (base : Str) : Str × Str :=
  let lead := base.takeWhile (fun c => c = '.')
  let rest := base.dropWhile (fun c => c = '.')
  match splitLastDot rest with
  | some (a, b) => (lead ++ a, b)
  | none => (base, [])

/-! ## Caption generator (`app/utils/caption_generator.py`) -/

namespace CaptionGen

/-- Styled caption record built by `_parse_caption_response`.  Python builds a
dict whose keys appear only once the corresponding line prefix has been seen,
so every field is optional. -/
structure ParsedCaption where
  style : Option Str := none
  text : Option Str := none
  hashtags : Option (List Str) := none
  emojis : Option (List Str) := none
  formatting : Option Str := none
deriving DecidableEq

/-- Python truthiness of the `current_caption` dict: empty iff no key has been
set. -/
def ParsedCaption.isEmptyDict (c : ParsedCaption) : Bool :=
  c.style.isNone && c.text.isNone && c.hashtags.isNone && c.emojis.isNone
    && c.formatting.isNone

/-- Sections of the line-prefix state machine in `_parse_caption_response`. -/
inductive CapSect where
  | text
  | hashtags
  | emojis
  | formatting
deriving DecidableEq

/-- State threaded through the line loop of `_parse_caption_response`. -/
structure ParseState where
  captions : List ParsedCaption
  current : ParsedCaption
  sect : Option CapSect

/-- Style extraction of a `Caption N (Style):` header:
`line.split("(")[1].split(")")[0].lower()` — the characters after the first
`(` up to the next `(` or `)`. -/
def extractStyle (line : Str) : Str :=
  toLowerL (((line.dropWhile (fun c => c ≠ '(')).drop 1).takeWhile
    (fun c => c ≠ '(' && c ≠ ')'))

/-- Tokens of an `Emojis:` payload: Python iterates the characters of the
string and keeps each non-whitespace character (`emoji.strip()` drops
whitespace characters). -/
def charTokens (s : Str) : List Str :=
  (s.filter (fun c => !c.isWhitespace)).map (fun c => [c])

/-- One iteration of the line loop of `_parse_caption_response`. -/
def processLine (st : ParseState) (rawLine : Str) : ParseState :=
  let line := pyStrip rawLine
  if line.isEmpty then st
  else if ("Caption".toList).isPrefixOf line then
    let caps :=
      if st.current.isEmptyDict then st.captions else st.captions ++ [st.current]
    let style :=
      if line.contains '(' && line.contains ')' then extractStyle line
      else "casual".toList
    { captions := caps, current := { style := some style }, sect := none }
  else if ("Text:".toList).isPrefixOf line then
    { st with
      current := { st.current with text := some (pyStrip (line.drop 5)) }
      sect := some CapSect.text }
  else if ("Hashtags:".toList).isPrefixOf line then
    { st with
      current :=
        { st.current with hashtags := some (pyWords (pyStrip (line.drop 9))) }
      sect := some CapSect.hashtags }
  else if ("Emojis:".toList).isPrefixOf line then
    { st with
      current :=
        { st.current with emojis := some (charTokens (pyStrip (line.drop 7))) }
      sect := some CapSect.emojis }
  else if ("Formatting:".toList).isPrefixOf line then
    { st with
      current := { st.current with formatting := some (pyStrip (line.drop 11)) }
      sect := some CapSect.formatting }
  else
    match st.sect with
    | some CapSect.text =>
      { st with
        current :=
          { st.current with text := some (st.current.text.getD [] ++ ' ' :: line) } }
    | some CapSect.hashtags =>
      { st with
        current :=
          { st.current with
            hashtags := some (st.current.hashtags.getD [] ++ pyWords line) } }
    | some CapSect.emojis =>
      { st with
        current :=
          { st.current with
            emojis := some (st.current.emojis.getD [] ++ charTokens line) } }
    | some CapSect.formatting =>
      { st with
        current :=
          { st.current with
            formatting := some (st.current.formatting.getD [] ++ ' ' :: line) } }
    | none => st

/-- Preamble phrases stripped from a caption text by `_parse_caption_response`. -/
def prefixesToRemove : List Str :=
  [("Here\x27s a reflective and thoughtful Instagram caption:".toList),
   ("Here\x27s a reflective caption:".toList),
   ("Here\x27s a thoughtful caption:".toList),
   ("Here\x27s a humorous caption:".toList),
   ("Here\x27s a casual caption:".toList),
   ("Here\x27s a poetic caption:".toList),
   ("Here\x27s an Instagram caption:".toList),
   ("Sure, how about:".toList),
   ("How about:".toList),
   ("I suggest:".toList),
   ("Try this:".toList),
   ("Here is a simple & lighthearted Instagram caption idea:".toList),
   ("Here\x27s a simple caption:".toList),
   ("Here\x27s a lighthearted caption:".toList),
   ("Here\x27s a simple & lighthearted caption:".toList),
   ("Caption:".toList)]

/-- Sequential preamble stripping: each listed phrase is removed when the text
currently starts with it. -/
def removePrefixes (t : Str) : Str :=
  prefixesToRemove.foldl
    (fun acc p => if p.isPrefixOf acc then pyStrip (acc.drop p.length) else acc) t

/-- Quote unwrapping: symmetric double or single quotes around the whole text
are removed and the remainder re-stripped. -/
def stripWrappingQuotes (t : Str) : Str :=
  if (['"'].isPrefixOf t && ['"'].isSuffixOf t)
      || (['\x27'].isPrefixOf t && ['\x27'].isSuffixOf t) then
    pyStrip ((t.drop 1).dropLast)
  else t

/-- Removal of embedded CSS-like contamination: when `;position:absolute;` or
`;position:abso/ute;` occurs, the span from `;position:` to the closing brace
is cut out (only when the span does not start at index 0, mirroring
`if css_start > 0`). -/
def cssCleanup (t : Str) : Str :=
  if containsSub t (";position:absolute;".toList)
      || containsSub t (";position:abso/ute;".toList) then
    match findSub t (";position:".toList) with
    | some i =>
      if i > 0 then
        match findSubFrom t ['\x7d'] i with
        | some j => if j > i then t.take i ++ t.drop (j + 1) else t.take i
        | none => t.take i
      else t
    | none => t
  else t

/-- Text cleanup applied to each parsed caption that has a `text` key. -/
def cleanupCaption (c : ParsedCaption) : ParsedCaption :=
  match c.text with
  | none => c
  | some t0 =>
    let t1 := removePrefixes t0
    let t2 :=
      if ("Caption:".toList).isPrefixOf t1 then pyStrip (t1.drop 8) else t1
    let t3 := stripWrappingQuotes t2
    let t4 := cssCleanup t3
    { c with text := some t4 }

/-- `CaptionGenerator._parse_caption_response`: the line-prefix state machine
over the stripped lines of the model response, followed by text cleanup. -/
def parseCaptionResponse (responseText : Str) : List ParsedCaption :=
  let st := (splitLines responseText).foldl processLine
    { captions := [], current := {}, sect := none }
  let caps :=
    if st.current.isEmptyDict then st.captions else st.captions ++ [st.current]
  caps.map cleanupCaption

/-- Input normalization at the head of
`CaptionGenerator.generate_caption_with_suggestions`: an empty or
whitespace-only description becomes a placeholder, and a description longer
than 500 characters is truncated with an ellipsis. -/
def normalizeDescription (d : Str) : Str :=
  let d1 := if d.isEmpty || (pyStrip d).isEmpty then "A beautiful image".toList else d
  if d1.length > 500 then d1.take 500 ++ "...".toList else d1

/-- A remote prompt split at the interpolation point of the description. -/
structure Prompt where
  pre : Str
  desc : Str
  post : Str

/-- Full prompt text sent to the remote model. -/
def Prompt.render (p : Prompt) : Str := p.pre ++ p.desc ++ p.post

/-- Literal prompt text of `generate_caption_with_suggestions` before the
interpolated description. -/
def suggestionPromptPre : Str :=
  ("\nGenerate 3 different Instagram captions for the following image description:\n\"").toList

/-- Literal prompt text of `generate_caption_with_suggestions` after the
interpolated description. -/
def suggestionPromptPost : Str :=
  ("\"\n\nFor each caption, provide:\n1. A creative and engaging caption text\n2. 3-5 relevant hashtags\n3. Appropriate emojis to include\n4. Formatting suggestions (line breaks, etc.)\n\nFormat your response as follows:\n\nCaption 1 (Casual):\nText: [caption text]\nHashtags: [hashtags]\nEmojis: [emojis]\nFormatting: [formatting suggestions]\n\nCaption 2 (Poetic):\nText: [caption text]\nHashtags: [hashtags]\nEmojis: [emojis]\nFormatting: [formatting suggestions]\n\nCaption 3 (Humorous):\nText: [caption text]\nHashtags: [hashtags]\nEmojis: [emojis]\nFormatting: [formatting suggestions]\n").toList

/-- Prompt built by `generate_caption_with_suggestions`: the description is
normalized before being embedded. -/
def suggestionPrompt (d : Str) : Prompt :=
  { pre := suggestionPromptPre, desc := normalizeDescription d
    post := suggestionPromptPost }

/-- Batch returned by `generate_caption_with_suggestions`: the parsed captions
plus the error annotation present only on the fallback path. -/
structure CaptionResult where
  error : Option Str
  captions : List ParsedCaption
deriving DecidableEq

/-- Hard-coded fallback batch returned when both model calls raise: three
captions whose texts embed the first 50 characters of the error message. -/
def fallbackCaptions (errorMessage : Str) : CaptionResult :=
  { error := some errorMessage
    captions :=
      [{ style := some ("casual".toList)
         text := some (("Check out this amazing photo! #Instagram (Error: ".toList)
           ++ errorMessage.take 50 ++ "...)".toList)
         hashtags := some [("#Instagram".toList), ("#Photo".toList), ("#Share".toList)]
         emojis := some [("📸".toList), ("✨".toList)]
         formatting := some ("Add a line break after the caption text".toList) },
       { style := some ("poetic".toList)
         text := some (("Moments captured in time, forever preserved in pixels. (Error: ".toList)
           ++ errorMessage.take 50 ++ "...)".toList)
         hashtags := some [("#Photography".toList), ("#Moments".toList), ("#LifeCaptured".toList)]
         emojis := some [("🌟".toList), ("✨".toList), ("📷".toList)]
         formatting := some ("Add a line break after each sentence".toList) },
       { style := some ("humorous".toList)
         text := some (("When in doubt, post it anyway! (Error: ".toList)
           ++ errorMessage.take 50 ++ "...)".toList)
         hashtags := some [("#NoFilter".toList), ("#JustForFun".toList), ("#SocialMedia".toList)]
         emojis := some [("😂".toList), ("🤣".toList), ("🙌".toList)]
         formatting := some ("Add emojis at the end of the caption".toList) }] }

/-- `CaptionGenerator.generate_caption_with_suggestions`: normalize the
description, build the prompt, call the `command` model and on an exception the
`command-light` model (each modelled as a function from the prompt text to a
response or an exception message), parse the stripped response; when both calls
raise, return the hard-coded fallback batch for the second error. -/
def generateCaptionWithSuggestions (description : Str)
    (primary secondary : Str → Except Str Str) : CaptionResult :=
  let prompt := (suggestionPrompt description).render
  match primary prompt with
  | Except.ok t => { error := none, captions := parseCaptionResponse (pyStrip t) }
  | Except.error _ =>
    match secondary prompt with
    | Except.ok t => { error := none, captions := parseCaptionResponse (pyStrip t) }
    | Except.error e => fallbackCaptions e

end CaptionGen

/-! ## Direct Cohere generator (`app/utils/direct_cohere_generator.py`) -/

namespace DirectCohere

open CaptionGen (Prompt)

/-- Literal prompt text before the description in the five-shot prompt of
`DirectCohereGenerator.generate_caption` (the main-style caption). -/
def fiveShotPromptPre : Str :=
  ("\nExample 1:\nImage Description: A colorful sunset over the ocean with a small sailboat in the distance.\nCaption: \"Sailing into the golden hour. #SunsetMagic\"\n\nExample 2:\nImage Description: A close-up shot of a delicious slice of pepperoni pizza with melted cheese.\nCaption: \"Cheesy dreams and pizza cravings. #FoodieHeaven\"\n\nExample 3:\nImage Description: A bustling city street at night with neon lights and busy crowds.\nCaption: \"City lights, big dreams. #UrbanVibes\"\n\nExample 4:\nImage Description: A serene mountain landscape covered in snow under a clear blue sky.\nCaption: \"Chasing peaks and frozen dreams. #NatureLovers\"\n\nExample 5:\nImage Description: A bright and playful picture of a dog running happily in a park.\nCaption: \"Pure joy on four legs. #HappyPup\"\n\nNow, given the following image description, generate a creative, engaging, and appropriate Instagram caption.\n\nImage Description: \"").toList

/-- Literal prompt text after the description in the five-shot prompt. -/
def fiveShotPromptPost : Str := ("\"\nCaption:").toList

/-- Five-shot prompt of `DirectCohereGenerator.generate_caption`: the raw
description is interpolated with no normalization. -/
def fiveShotPrompt (d : Str) : Prompt :=
  { pre := fiveShotPromptPre, desc := d, post := fiveShotPromptPost }

/-- Casual-style prompt of
`DirectCohereGenerator.generate_caption_with_suggestions`: the raw description
is interpolated with no normalization. -/
def casualPrompt (d : Str) : Prompt :=
  { pre := ("\nGenerate a casual, friendly Instagram caption for this image description: \"").toList
    desc := d
    post := ("\"\nMake it short, use emojis, and include 1-2 hashtags.\nReturn ONLY the caption text without any prefixes like \"Here\x27s a caption:\" or \"Try this:\".\n").toList }

/-- Poetic-style prompt, likewise embedding the raw description. -/
def poeticPrompt (d : Str) : Prompt :=
  { pre := ("\nGenerate a poetic, thoughtful Instagram caption for this image description: \"").toList
    desc := d
    post := ("\"\nMake it reflective, use elegant language, and include 1-2 meaningful hashtags.\nReturn ONLY the caption text without any prefixes like \"Here\x27s a caption:\" or \"Try this:\".\n").toList }

/-- Humorous-style prompt, likewise embedding the raw description. -/
def humorousPrompt (d : Str) : Prompt :=
  { pre := ("\nGenerate a funny, witty Instagram caption for this image description: \"").toList
    desc := d
    post := ("\"\nMake it humorous, use wordplay, and include 1-2 funny hashtags.\nReturn ONLY the caption text without any prefixes like \"Here\x27s a caption:\" or \"Try this:\".\n").toList }

end DirectCohere

/-! ## PIL image operations, as used by the image processors -/

/-- Decoded image: dimensions plus color mode (`RGB`, `RGBA`, `L`, ...). -/
structure PILImage where
  width : Nat
  height : Nat
  mode : Str
deriving DecidableEq

/-- `Image.crop((left, top, right, bottom))`: the cropped size is
`(right - left, bottom - top)`. -/
def PILImage.crop (img : PILImage) (left top right bottom : Nat) : PILImage :=
  { img with width := right - left, height := bottom - top }

/-- `Image.resize((w, h))`: the output has exactly the requested size. -/
def PILImage.resize (img : PILImage) (w h : Nat) : PILImage :=
  { img with width := w, height := h }

/-- `Image.convert(mode)`: only the color mode changes. -/
def PILImage.convertMode (img : PILImage) (m : Str) : PILImage :=
  { img with mode := m }

/-- Channel count of the PIL color modes handled by the backend. -/
def modeChannels (m : Str) : Nat :=
  if m = "RGB".toList then 3
  else if m = "RGBA".toList then 4
  else if m = "CMYK".toList then 4
  else if m = "LA".toList then 2
  else 1

/-! ## Direct Instagram poster (`app/utils/direct_instagram_poster.py`) -/

namespace DirectPoster

/-- `convert_to_instagram_size` of `direct_instagram_poster.py`: center-crop to
the smaller dimension, resize to 1080×1080, convert to `RGB` when needed and
save as `<stem>_instagram.jpg` next to the original.  A failure to decode the
image (`opened = none` models the exception) returns the original path with no
file written.  The result is the returned path paired with the written file,
if any. -/
def convertToInstagramSize (opened : Option PILImage) (imagePath : Str) :
    Str × Option (Str × PILImage) :=
  match opened with
  | none => (imagePath, none)
  | some image =>
    let minDim := min image.width image.height
    let left := (image.width - minDim) / 2
    let top := (image.height - minDim) / 2
    let imageCropped := image.crop left top (left + minDim) (top + minDim)
    let imageResized := imageCropped.resize 1080 1080
    let filename := basenameL imagePath
    let se := splitExtL filename
    let newFilename := se.1 ++ "_instagram.jpg".toList
    let outputDir := dirnameL imagePath
    let newPath := pyJoin outputDir newFilename
    let toSave :=
      if imageResized.mode = "RGB".toList then imageResized
      else imageResized.convertMode ("RGB".toList)
    (newPath, some (newPath, toSave))

/-- Hard wall-clock timeout passed to `process.communicate` in
`post_to_instagram` of `direct_instagram_poster.py`. -/
def communicateTimeoutSeconds : Nat := 120

/-- Outcome of waiting on the posting subprocess. -/
structure ProcessResult where
  success : Bool
  killed : Bool
deriving DecidableEq

/-- Waiting on the posting subprocess in `post_to_instagram`: when the process
outlives the timeout, `TimeoutExpired` is raised, the process is killed and
the job fails; otherwise success is `returncode == 0`. -/
def runPostingProcess (runtimeSeconds : Nat) (exitCode : Int) : ProcessResult :=
  if runtimeSeconds > communicateTimeoutSeconds then
    { success := false, killed := true }
  else
    { success := exitCode == 0, killed := false }

/-- Outcome of the Instabot calls inside the embedded subprocess script. -/
inductive BotOutcome where
  | loginFail
  | uploadResult (ok : Bool)
  | raised (msg : Str)

/-- False-negative reclassification shared by the embedded script and by
`InstagramPoster.post_to_instagram`: an exception is treated as success
exactly when its message contains both
`Cannot create a file when that file already exists` and `.REMOVE_ME`. -/
def removeMeErrorOverride (msg : Str) : Bool :=
  containsSub msg ("Cannot create a file when that file already exists".toList)
    && containsSub msg (".REMOVE_ME".toList)

/-- `post_to_instagram` of the embedded subprocess script: login failure and a
falsy upload result fail; an exception succeeds only under
`removeMeErrorOverride`. -/
def scriptPostToInstagram : BotOutcome → Bool
  | BotOutcome.loginFail => false
  | BotOutcome.uploadResult ok => ok
  | BotOutcome.raised msg => removeMeErrorOverride msg

end DirectPoster

/-! ## Posts routes (`app/routes/posts.py`) -/

namespace Posts

/-- Content record of the `Post` model, as touched by the publish workflow. -/
structure PostRecord where
  id : Nat
  imagePath : Option Str
  caption : Str
  isPosted : Bool
deriving DecidableEq

/-- Database update performed after a publish attempt, in
`instagram_posting_thread` of `create_post` and of
`post_to_instagram_endpoint`, and at the tail of
`post_to_instagram_direct`: on success the `is_posted` flag is set; on
failure the record is not touched. -/
def updateAfterPublish (post : PostRecord) (success : Bool) : PostRecord :=
  if success then { post with isPosted := true } else post

end Posts

/-! ## Simple image processor (`app/utils/simple_image_processor.py`) -/

namespace SimpleProc

/-- `SimpleImageProcessor.convert_to_instagram_size`: center-crop to the
smaller dimension, resize to 1080×1080 and save as
`<stem>_instagram<ext>` inside the upload folder.  Unlike the direct poster's
version there is no conversion of the color mode.  A decode failure
(`opened = none`) returns the original path with no file written. -/
def convertToInstagramSize (uploadFolder : Str) (opened : Option PILImage)
    (imagePath : Str) : Str × Option (Str × PILImage) :=
  match opened with
  | none => (imagePath, none)
  | some image =>
    let minDim := min image.width image.height
    let left := (image.width - minDim) / 2
    let top := (image.height - minDim) / 2
    let imageCropped := image.crop left top (left + minDim) (top + minDim)
    let imageResized := imageCropped.resize 1080 1080
    let filename := basenameL imagePath
    let se := splitExtL filename
    let newFilename := se.1 ++ "_instagram".toList ++ se.2
    let newPath := pyJoin uploadFolder newFilename
    (newPath, some (newPath, imageResized))

/-- `SimpleImageProcessor.save_image` (and `ImageProcessor.save_image`): the
upload is written as received — the dimensions are unchanged. -/
def saveImageDims (w h : Nat) : Nat × Nat := (w, h)

end SimpleProc

/-! ## BLIP image processor (`app/utils/blip_image_processor.py`) -/

namespace BlipProc

/-- `BlipImageProcessor.convert_to_instagram_size`: the class defines this
method twice; the second definition shadows the first and its body is
character-identical to `SimpleImageProcessor.convert_to_instagram_size`
(output joined with the upload folder, no color-mode conversion). -/
def convertToInstagramSize (uploadFolder : Str) (opened : Option PILImage)
    (imagePath : Str) : Str × Option (Str × PILImage) :=
  SimpleProc.convertToInstagramSize uploadFolder opened imagePath

/-- Dimension effect of `BlipImageProcessor.save_image`: after the upload is
written, an image with either dimension above 2000 is rewritten downsampled by
the common ratio `min(2000/width, 2000/height)`, which for positive dimensions
is `2000 / max width height`; `int(dim * ratio)` is the floor, i.e. truncating
natural division (Python's float arithmetic is modelled as exact rational
arithmetic). -/
def saveImageDims (w h : Nat) : Nat × Nat :=
  if w > 2000 ∨ h > 2000 then
    (w * 2000 / max w h, h * 2000 / max w h)
  else (w, h)

end BlipProc

/-! ## Captions route (`app/routes/captions.py`) -/

namespace CaptionsRoute

/-- Dimension effect of the direct-save fallback in `generate_caption`
(`image_file.save(image_path)` with no processing, taken when the
`BlipImageProcessor` path raises): the upload is written unchanged. -/
def directSaveDims (w h : Nat) : Nat × Nat := (w, h)

/-- Authentication prologue of `generate_caption`: the JWT identity is
re-parsed with `int(...)`; a `ValueError`/`TypeError` answers 401, an unknown
user 404, and otherwise the request proceeds (modelled as 200). -/
def generateCaptionHandler (identity : Str) (users : List Int) : Nat :=
  match pyIntParse identity with
  | none => 401
  | some uid => if users.contains uid then 200 else 404

end CaptionsRoute

namespace Posts

/-- `get_posts`: the identity is re-parsed with `int(...)`; failure answers
401, an unknown user 404, success 200. -/
def getPostsHandler (identity : Str) (users : List Int) : Nat :=
  match pyIntParse identity with
  | none => 401
  | some uid => if users.contains uid then 200 else 404

/-- `get_post`: same parse prologue as `get_posts`, then 404 when the post is
not owned by the user. -/
def getPostHandler (identity : Str) (users : List Int) (postFound : Bool) : Nat :=
  match pyIntParse identity with
  | none => 401
  | some uid =>
    if users.contains uid then (if postFound then 200 else 404) else 404

/-- `create_post`: same parse prologue, then 400 on a missing caption and 201
on success. -/
def createPostHandler (identity : Str) (users : List Int) (hasCaption : Bool) : Nat :=
  match pyIntParse identity with
  | none => 401
  | some uid =>
    if users.contains uid then (if hasCaption then 201 else 400) else 404

/-- `update_post`: there is no `int(...)` re-parse — the raw token identity is
handed to `User.query.get` with no surrounding try/except.  Against the
configured PostgreSQL backend (`config.py` defaults the database URI to
`postgresql://...`), comparing the integer primary key with a non-numeric
string raises `invalid input syntax for type integer` (a DataError), and the
unhandled exception surfaces as an HTTP 500 server error; a numeric string is
cast and matches the corresponding user. -/
def updatePostHandler (identity : Str) (users : List Int) (postFound : Bool) : Nat :=
  match pyIntParse identity with
  | none => 500
  | some uid =>
    if users.contains uid then (if postFound then 200 else 404) else 404

/-- `delete_post`: identical identity handling to `update_post` (no re-parse,
no try/except), so a malformed identity likewise raises a DataError in the
user lookup and surfaces as an unhandled HTTP 500 server error. -/
def deletePostHandler (identity : Str) (users : List Int) (postFound : Bool) : Nat :=
  match pyIntParse identity with
  | none => 500
  | some uid =>
    if users.contains uid then (if postFound then 200 else 404) else 404

end Posts

/-! ## Instagram poster (`app/utils/instagram_poster.py`) -/

namespace InstaPoster

/-- File-system view seen by `post_to_instagram_direct`: an existence test
plus the directory listing of the upload folder (empty when the folder is
missing). -/
structure FileSystem where
  fileExists : Str → Bool
  uploadListing : List Str

/-- Path recovery of `post_to_instagram_direct` (lines 325–362): the literal
stored path; the basename joined with the upload folder; the basename joined
with the static folder; finally a scan of the upload folder for a file whose
lowercased name contains the lowercased basename.  When nothing matches, the
stale stored path is kept (and fails the final existence check). -/
def resolveImagePath (fs : FileSystem) (uploadFolder staticFolder storedPath : Str) :
    Str :=
  if fs.fileExists storedPath then storedPath
  else
    let basename := basenameL storedPath
    let possiblePath1 := pyJoin uploadFolder basename
    if fs.fileExists possiblePath1 then possiblePath1
    else
      let possiblePath2 := pyJoin staticFolder basename
      if fs.fileExists possiblePath2 then possiblePath2
      else
        match fs.uploadListing.find?
            (fun f => containsSub (toLowerL f) (toLowerL basename)) with
        | some f => pyJoin uploadFolder f
        | none => storedPath

/-- `post_to_instagram_direct`: fail when the record has no artifact path;
resolve the stored path; fail (record untouched) when the resolved path does
not exist; otherwise run the publish (image normalization and the Instabot
session are abstracted into `publish`) and set the record's flag only on
success.  Every failure path returns `False` to its caller — exceptions are
caught inside the function. -/
def postToInstagramDirect (fs : FileSystem) (uploadFolder staticFolder : Str)
    (post : Posts.PostRecord) (publish : Str → Bool) : Bool × Posts.PostRecord :=
  match post.imagePath with
  | none => (false, post)
  | some stored =>
    let fullImagePath := resolveImagePath fs uploadFolder staticFolder stored
    if fs.fileExists fullImagePath then
      let ok := publish fullImagePath
      (ok, Posts.updateAfterPublish post ok)
    else (false, post)

end InstaPoster

/-! ## Concrete inputs used by the counterexamples and witnesses -/

/-- Error message that contains the two substrings named by the spec but not
the full phrase the code tests for. -/
def cexRemoveMeMsg : Str :=
  ("Instagram upload error: file already exists (photo.jpg.REMOVE_ME)").toList

/-- Error message of the actual Windows rename collision handled by the code. -/
def fullRemoveMeMsg : Str :=
  ("OSError: Cannot create a file when that file already exists: photo.jpg.REMOVE_ME").toList

/-- Sample unpublished content record. -/
def examplePost : Posts.PostRecord :=
  { id := 7, imagePath := some ("uploads/photo.jpg".toList)
    caption := ("hello".toList), isPosted := false }

/-- Description of 501 characters, one past the truncation threshold. -/
def longDescription : Str := List.replicate 501 'a'

/-- File system in which only the upload-folder copy of the artifact exists. -/
def resolveFS : InstaPoster.FileSystem :=
  { fileExists := fun p => p == ("app/uploads/photo.jpg".toList)
    uploadListing := [("photo.jpg".toList)] }

/-! ## Helper lemmas -/

theorem splitLastDot_eq_some {l a b : Str} (h : splitLastDot l = some (a, b)) :
    a ++ b = l ∧ ∃ e, b = '.' :: e := by
  induction l generalizing a b with
  | nil => simp [splitLastDot] at h
  | cons c cs ih =>
    rw [splitLastDot] at h
    cases hcs : splitLastDot cs with
    | some q =>
      obtain ⟨a', b'⟩ := q
      rw [hcs] at h
      simp only [Option.some.injEq, Prod.mk.injEq] at h
      obtain ⟨ha, hb⟩ := h
      obtain ⟨hab, he⟩ := ih hcs
      constructor
      · rw [← ha, ← hb, List.cons_append, hab]
      · rw [← hb]; exact he
    | none =>
      rw [hcs] at h
      by_cases hc : c = '.'
      · rw [if_pos hc] at h
        simp only [Option.some.injEq, Prod.mk.injEq] at h
        obtain ⟨ha, hb⟩ := h
        refine ⟨?_, cs, ?_⟩
        · rw [← ha, ← hb]; rfl
        · rw [← hb, hc]
      · rw [if_neg hc] at h
        exact absurd h (by simp)

theorem splitExtL_append (base : Str) :
    (splitExtL base).1 ++ (splitExtL base).2 = base := by
  unfold splitExtL
  cases h : splitLastDot (List.dropWhile (fun c => decide (c = '.')) base) with
  | none => simp [h]
  | some q =>
    obtain ⟨a, b⟩ := q
    obtain ⟨hab, -⟩ := splitLastDot_eq_some h
    simp only [h, List.append_assoc, hab, List.takeWhile_append_dropWhile]

theorem splitExtL_ext_shape (base : Str) :
    (splitExtL base).2 = [] ∨ ∃ e, (splitExtL base).2 = '.' :: e := by
  unfold splitExtL
  cases h : splitLastDot (List.dropWhile (fun c => decide (c = '.')) base) with
  | none => simp [h]
  | some q =>
    obtain ⟨a, b⟩ := q
    obtain ⟨-, he⟩ := splitLastDot_eq_some h
    simp only [h]
    exact Or.inr he

theorem takeWhile_append_cons {α : Type} (p : α → Bool) (xs : List α) (y : α)
    (ys : List α) (hxs : ∀ x ∈ xs, p x) (hy : p y = false) :
    (xs ++ y :: ys).takeWhile p = xs := by
  induction xs with
  | nil => simp [List.takeWhile_cons, hy]
  | cons a as ih =>
    have ha : p a := hxs a (List.mem_cons_self a as)
    simp only [List.cons_append, List.takeWhile_cons, ha, if_pos]
    rw [ih (fun x hx => hxs x (List.mem_cons_of_mem a hx))]

theorem mem_basenameL {c : Char} {p : Str} (h : c ∈ basenameL p) : c ≠ '/' := by
  unfold basenameL at h
  rw [List.mem_reverse] at h
  simpa using List.mem_takeWhile_imp h

theorem basenameL_of_no_slash {n : Str} (hn : ∀ c ∈ n, c ≠ '/') :
    basenameL n = n := by
  unfold basenameL
  rw [List.takeWhile_eq_self_iff.mpr, List.reverse_reverse]
  intro x hx
  simpa using hn x (List.mem_reverse.mp hx)

theorem basenameL_append_cons {d n : Str} (hn : ∀ c ∈ n, c ≠ '/') :
    basenameL (d ++ '/' :: n) = n := by
  unfold basenameL
  rw [List.reverse_append, List.reverse_cons, List.append_assoc,
    List.singleton_append,
    takeWhile_append_cons _ _ _ _ (fun x hx => by simpa using hn x (List.mem_reverse.mp hx)) (by simp),
    List.reverse_reverse]

theorem basenameL_pyJoin {d n : Str} (hn : ∀ c ∈ n, c ≠ '/') :
    basenameL (pyJoin d n) = n := by
  unfold pyJoin
  split
  · next h1 =>
    exfalso
    rw [List.isPrefixOf_iff_prefix] at h1
    obtain ⟨t, ht⟩ := h1
    exact hn '/' (ht ▸ List.mem_append_left _ (by simp)) rfl
  · split
    · exact basenameL_of_no_slash hn
    · split
      · next h3 =>
        obtain ⟨d', hd⟩ : ∃ d', d = d' ++ ['/'] :=
          ⟨d.dropLast, (List.dropLast_append_getLast? '/' (Option.mem_def.mpr h3)).symm⟩
        rw [hd, List.append_assoc, List.singleton_append]
        exact basenameL_append_cons hn
      · exact basenameL_append_cons hn

theorem pyJoin_ne_of_basename {d n p : Str} (hn : ∀ c ∈ n, c ≠ '/')
    (hne : n ≠ basenameL p) : pyJoin d n ≠ p := by
  intro h
  exact hne (by rw [← h, basenameL_pyJoin hn])

theorem instagramFilenameJpg_ne {stem ext : Str}
    (hext : ext = [] ∨ ∃ e, ext = '.' :: e) :
    stem ++ "_instagram.jpg".toList ≠ stem ++ ext := by
  intro h
  have h2 := List.append_cancel_left h
  rcases hext with h3 | ⟨e, h3⟩
  · rw [h3] at h2
    have hl : ("_instagram.jpg".toList).length = 14 := rfl
    rw [h2] at hl
    simp at hl
  · rw [h3, show "_instagram.jpg".toList = '_' :: "instagram.jpg".toList from rfl] at h2
    injection h2 with hc _
    exact absurd hc (by decide)

theorem instagramFilenameExt_ne {stem ext : Str} :
    stem ++ ("_instagram".toList ++ ext) ≠ stem ++ ext := by
  intro h
  have h2 := List.append_cancel_left h
  have h3 := congrArg List.length h2
  rw [List.length_append, show ("_instagram".toList).length = 10 from rfl] at h3
  omega

/-! ## Claim theorems -/

/-- C1 fails as stated: when the remote call succeeds but returns an empty
response text, `generate_caption_with_suggestions` parses it into a batch with
zero captions, so not every description yields a batch of length ≥ 1. -/
theorem C1_counterexample :
    (CaptionGen.generateCaptionWithSuggestions ("a sunset over the ocean".toList)
        (fun _ => Except.ok []) (fun _ => Except.ok [])).captions = [] := rfl

/-- C1 (amended): whenever both remote generation calls fail — in particular
under total upstream failure — `generate_caption_with_suggestions` returns a
batch of exactly three captions, each with a non-empty text; when a remote
call succeeds, the batch is whatever `_parse_caption_response` extracts from
the response and can be empty. -/
theorem C1_fallback_batch_nonempty :
    ∀ (d perr serr : Str),
      (CaptionGen.generateCaptionWithSuggestions d
          (fun _ => Except.error perr) (fun _ => Except.error serr)).captions.length = 3
        ∧ (CaptionGen.generateCaptionWithSuggestions d
            (fun _ => Except.error perr) (fun _ => Except.error serr)).captions.all
            (fun c => !(c.text.getD []).isEmpty) = true := by
  intro d perr serr
  exact ⟨rfl, rfl⟩

/-- C2: the publish-status flag is monotonic across the publish workflow.
`updateAfterPublish` is the only operation of the workflow touching the flag
(once per job, in the posting threads and in `post_to_instagram_direct`); it
leaves a failed record untouched, sets the flag on success, and across any
sequence of publish attempts the flag equals its old value or-ed with the
attempts' outcomes — once observed set it is never unset. -/
theorem C2_publish_status_monotonic :
    ∀ (p : Posts.PostRecord) (results : List Bool),
      (results.foldl Posts.updateAfterPublish p).isPosted
          = (p.isPosted || results.any (fun b => b))
        ∧ Posts.updateAfterPublish p false = p
        ∧ (Posts.updateAfterPublish p true).isPosted = true := by
  intro p results
  refine ⟨?_, rfl, rfl⟩
  induction results generalizing p with
  | nil => simp
  | cons r rs ih =>
    rw [List.foldl_cons, ih]
    cases r <;> simp [Posts.updateAfterPublish, Bool.or_assoc]

/-- C3 fails as stated: this message contains both "file already exists" and
the ".REMOVE_ME" marker, yet the publish is classified as failed and the
record untouched — the code demands the longer phrase "Cannot create a file
when that file already exists". -/
theorem C3_counterexample :
    containsSub cexRemoveMeMsg ("file already exists".toList) = true
      ∧ containsSub cexRemoveMeMsg (".REMOVE_ME".toList) = true
      ∧ DirectPoster.scriptPostToInstagram
          (DirectPoster.BotOutcome.raised cexRemoveMeMsg) = false
      ∧ Posts.updateAfterPublish examplePost
          (DirectPoster.scriptPostToInstagram
            (DirectPoster.BotOutcome.raised cexRemoveMeMsg)) = examplePost :=
  ⟨rfl, rfl, rfl, rfl⟩

/-- C3 (amended): when the raised error message contains the full phrase
"Cannot create a file when that file already exists" together with the
".REMOVE_ME" marker, the publish is reclassified as successful and the
record's publish-status flag becomes set. -/
theorem C3_remove_me_override (msg : Str) (p : Posts.PostRecord)
    (h : DirectPoster.removeMeErrorOverride msg = true) :
    DirectPoster.scriptPostToInstagram (DirectPoster.BotOutcome.raised msg) = true
      ∧ (Posts.updateAfterPublish p
          (DirectPoster.scriptPostToInstagram
            (DirectPoster.BotOutcome.raised msg))).isPosted = true := by
  refine ⟨h, ?_⟩
  simp only [DirectPoster.scriptPostToInstagram, h, Posts.updateAfterPublish, if_pos]

/-- Witness of `C3_remove_me_override` at the actual rename-collision
message. -/
theorem C3_remove_me_override_witness :
    DirectPoster.removeMeErrorOverride fullRemoveMeMsg = true
      ∧ (DirectPoster.scriptPostToInstagram
            (DirectPoster.BotOutcome.raised fullRemoveMeMsg) = true
        ∧ (Posts.updateAfterPublish examplePost
            (DirectPoster.scriptPostToInstagram
              (DirectPoster.BotOutcome.raised fullRemoveMeMsg))).isPosted = true) :=
  ⟨rfl, C3_remove_me_override fullRemoveMeMsg examplePost rfl⟩

/-- C4: the posting subprocess is bounded by a hard 120-second wall-clock
timeout; past it the process is killed, `post_to_instagram` reports failure,
and the subsequent record update leaves the record unchanged. -/
theorem C4_timeout_kills_and_fails :
    DirectPoster.communicateTimeoutSeconds = 120
      ∧ ∀ (rt : Nat) (rc : Int) (p : Posts.PostRecord), rt > 120 →
          (DirectPoster.runPostingProcess rt rc).success = false
            ∧ (DirectPoster.runPostingProcess rt rc).killed = true
            ∧ Posts.updateAfterPublish p
                (DirectPoster.runPostingProcess rt rc).success = p := by
  refine ⟨rfl, fun rt rc p h => ?_⟩
  have hgt : rt > DirectPoster.communicateTimeoutSeconds := h
  simp [DirectPoster.runPostingProcess, hgt, Posts.updateAfterPublish]

/-- Witness of `C4_timeout_kills_and_fails` at a 121-second runtime. -/
theorem C4_timeout_witness :
    (121 : Nat) > 120
      ∧ ((DirectPoster.runPostingProcess 121 0).success = false
        ∧ (DirectPoster.runPostingProcess 121 0).killed = true
        ∧ Posts.updateAfterPublish examplePost
            (DirectPoster.runPostingProcess 121 0).success = examplePost) :=
  ⟨by decide, C4_timeout_kills_and_fails.2 121 0 examplePost (by decide)⟩

/-- C5: artifact resolution in `post_to_instagram_direct` tries the literal
stored path first, then the stored path's basename joined with the upload
folder, then the static folder (the alternate known base directory), and uses
the first candidate that exists; when no candidate exists — including the
final name scan of the upload folder — the job returns failure with the
record unmodified, and being a total function it raises nothing. -/
theorem C5_resolution_order :
    ∀ (fs : InstaPoster.FileSystem) (uF sF stored : Str) (p : Posts.PostRecord)
      (publish : Str → Bool),
      (fs.fileExists stored = true →
        InstaPoster.resolveImagePath fs uF sF stored = stored)
      ∧ (fs.fileExists stored = false →
          fs.fileExists (pyJoin uF (basenameL stored)) = true →
          InstaPoster.resolveImagePath fs uF sF stored
            = pyJoin uF (basenameL stored))
      ∧ (fs.fileExists stored = false →
          fs.fileExists (pyJoin uF (basenameL stored)) = false →
          fs.fileExists (pyJoin sF (basenameL stored)) = true →
          InstaPoster.resolveImagePath fs uF sF stored
            = pyJoin sF (basenameL stored))
      ∧ (p.imagePath = some stored →
          fs.fileExists stored = false →
          fs.fileExists (pyJoin uF (basenameL stored)) = false →
          fs.fileExists (pyJoin sF (basenameL stored)) = false →
          fs.uploadListing.find?
              (fun f => containsSub (toLowerL f) (toLowerL (basenameL stored)))
            = none →
          InstaPoster.postToInstagramDirect fs uF sF p publish = (false, p)) := by
  intro fs uF sF stored p publish
  refine ⟨fun h1 => ?_, fun h1 h2 => ?_, fun h1 h2 h3 => ?_,
    fun hp h1 h2 h3 h4 => ?_⟩
  · simp [InstaPoster.resolveImagePath, h1]
  · simp [InstaPoster.resolveImagePath, h1, h2]
  · simp [InstaPoster.resolveImagePath, h1, h2, h3]
  · simp [InstaPoster.postToInstagramDirect, hp, InstaPoster.resolveImagePath,
      h1, h2, h3, h4]

/-- Witness of `C5_resolution_order`: the stored path is stale but a same-named
file exists in the upload folder, and resolution picks that copy. -/
theorem C5_resolution_witness :
    resolveFS.fileExists ("/old/dir/photo.jpg".toList) = false
      ∧ resolveFS.fileExists
          (pyJoin ("app/uploads".toList) (basenameL ("/old/dir/photo.jpg".toList)))
          = true
      ∧ InstaPoster.resolveImagePath resolveFS ("app/uploads".toList)
          ("app/static".toList) ("/old/dir/photo.jpg".toList)
          = pyJoin ("app/uploads".toList) (basenameL ("/old/dir/photo.jpg".toList)) :=
  ⟨rfl, rfl,
    (C5_resolution_order resolveFS ("app/uploads".toList) ("app/static".toList)
      ("/old/dir/photo.jpg".toList) examplePost (fun _ => false)).2.1 rfl rfl⟩

set_option maxRecDepth 8000 in
/-- C6 fails as stated: `DirectCohereGenerator.generate_caption_with_suggestions`
embeds the raw description into its per-style prompts with no normalization —
this 501-character description is embedded whole, while the single-call
strategy would have truncated it. -/
theorem C6_counterexample :
    (DirectCohere.casualPrompt longDescription).desc = longDescription
      ∧ longDescription.length > 500
      ∧ (CaptionGen.suggestionPrompt longDescription).desc ≠ longDescription := by
  refine ⟨rfl, by simp [longDescription], ?_⟩
  intro h
  have h1 : (CaptionGen.suggestionPrompt longDescription).desc.length = 503 := by
    decide
  rw [h] at h1
  simp [longDescription] at h1

/-- C6 (amended): `CaptionGenerator.generate_caption_with_suggestions`
normalizes the description before embedding it into its prompt — an empty or
whitespace-only description becomes the placeholder, a description longer than
500 characters is truncated with an ellipsis, and the embedded text is never
empty — but every prompt of the multi-call `DirectCohereGenerator` strategy
embeds the raw description unchanged. -/
theorem C6_normalization (d : Str) :
    (CaptionGen.suggestionPrompt d).desc = CaptionGen.normalizeDescription d
      ∧ (pyStrip d = [] →
          (CaptionGen.suggestionPrompt d).desc = "A beautiful image".toList)
      ∧ (d.length > 500 → pyStrip d ≠ [] →
          (CaptionGen.suggestionPrompt d).desc = d.take 500 ++ "...".toList)
      ∧ (CaptionGen.suggestionPrompt d).desc ≠ []
      ∧ (DirectCohere.casualPrompt d).desc = d
      ∧ (DirectCohere.poeticPrompt d).desc = d
      ∧ (DirectCohere.humorousPrompt d).desc = d
      ∧ (DirectCohere.fiveShotPrompt d).desc = d := by
  refine ⟨rfl, fun h => ?_, fun h1 h2 => ?_, ?_, rfl, rfl, rfl, rfl⟩
  · simp [CaptionGen.suggestionPrompt, CaptionGen.normalizeDescription, h]
  · have hde : d.isEmpty = false := by
      cases d with
      | nil => exact absurd rfl h2
      | cons c cs => rfl
    have hse : (pyStrip d).isEmpty = false := by
      cases hps : pyStrip d with
      | nil => exact absurd hps h2
      | cons c cs => rfl
    simp [CaptionGen.suggestionPrompt, CaptionGen.normalizeDescription,
      hde, hse, h1]
  · show CaptionGen.normalizeDescription d ≠ []
    unfold CaptionGen.normalizeDescription
    by_cases hq : (d.isEmpty || (pyStrip d).isEmpty) = true
    · simp only [hq, if_pos]
      intro hcontra
      simp at hcontra
    · simp only [Bool.not_eq_true] at hq
      simp only [hq, Bool.false_eq_true, if_false]
      have hd : d ≠ [] := by
        intro hnil
        rw [hnil] at hq
        simp at hq
      by_cases hlen : d.length > 500
      · simp only [hlen, if_pos]
        intro hcontra
        rcases List.append_eq_nil.mp hcontra with ⟨-, h3⟩
        simp at h3
      · simp only [hlen, if_neg, if_false]
        exact hd

set_option maxRecDepth 8000 in
/-- Witness of `C6_normalization`: a whitespace-only description is replaced
by the placeholder, and a 501-character description is truncated with an
ellipsis. -/
theorem C6_normalization_witness :
    (pyStrip ("   ".toList) = []
      ∧ (CaptionGen.suggestionPrompt ("   ".toList)).desc
          = "A beautiful image".toList)
      ∧ (longDescription.length > 500 ∧ pyStrip longDescription ≠ []
        ∧ (CaptionGen.suggestionPrompt longDescription).desc
            = longDescription.take 500 ++ "...".toList) :=
  ⟨⟨rfl, (C6_normalization ("   ".toList)).2.1 rfl⟩,
    ⟨by decide, by decide,
      (C6_normalization longDescription).2.2.1 (by decide) (by decide)⟩⟩

/-- C7 fails as stated: `SimpleImageProcessor.convert_to_instagram_size` (and
the shadowing BLIP version, which shares its body) performs no color-mode
conversion, so normalizing an RGBA image yields a 4-channel 1080×1080 image,
not a 3-channel one. -/
theorem C7_counterexample :
    ((SimpleProc.convertToInstagramSize ("uploads".toList)
        (some { width := 200, height := 100, mode := "RGBA".toList })
        ("uploads/img.png".toList)).2.map (fun w => modeChannels w.2.mode))
      = some 4 := rfl

/-- C7 (amended): every normalization writes an image of exactly 1080×1080
pixels; the direct poster's `convert_to_instagram_size` also forces a
3-channel RGB representation, while the simple and BLIP processors' versions
keep the input's color mode unchanged. -/
theorem C7_instagram_size (img : PILImage) (path uploadFolder : Str) :
    ((DirectPoster.convertToInstagramSize (some img) path).2.map
        (fun w => (w.2.width, w.2.height, modeChannels w.2.mode)))
      = some (1080, 1080, 3)
      ∧ ((SimpleProc.convertToInstagramSize uploadFolder (some img) path).2.map
          (fun w => (w.2.width, w.2.height, w.2.mode)))
        = some (1080, 1080, img.mode)
      ∧ ((BlipProc.convertToInstagramSize uploadFolder (some img) path).2.map
          (fun w => (w.2.width, w.2.height, w.2.mode)))
        = some (1080, 1080, img.mode) := by
  refine ⟨?_, rfl, rfl⟩
  by_cases h : img.mode = "RGB".toList
  · simp [DirectPoster.convertToInstagramSize, PILImage.crop, PILImage.resize,
      PILImage.convertMode, h, modeChannels]
  · rw [show ("RGB".toList : Str) = ['R', 'G', 'B'] from rfl] at h
    simp [DirectPoster.convertToInstagramSize, PILImage.crop, PILImage.resize,
      PILImage.convertMode, h, modeChannels]

/-- C8 fails as stated: the direct-save fallback path of `generate_caption`
(and the simple processor's `save_image`) writes a 3000×3000 upload with its
dimensions unchanged — only `BlipImageProcessor.save_image` downsamples. -/
theorem C8_counterexample :
    CaptionsRoute.directSaveDims 3000 3000 = (3000, 3000)
      ∧ SimpleProc.saveImageDims 3000 3000 = (3000, 3000)
      ∧ 2000 < (CaptionsRoute.directSaveDims 3000 3000).1 :=
  ⟨rfl, rfl, by decide⟩

/-- C8 (amended): an upload with either dimension above 2000 pixels saved
through `BlipImageProcessor.save_image` is downsampled so that both dimensions
are at most 2000, never enlarged, and both scaled by the common ratio
`2000 / max(width, height)`; the direct-save fallback path of
`generate_caption` stores the file unchanged. -/
theorem C8_blip_downsample (w h : Nat) (hw : 0 < w) (hh : 0 < h)
    (hbig : 2000 < w ∨ 2000 < h) :
    (BlipProc.saveImageDims w h).1 ≤ 2000
      ∧ (BlipProc.saveImageDims w h).2 ≤ 2000
      ∧ (BlipProc.saveImageDims w h).1 ≤ w
      ∧ (BlipProc.saveImageDims w h).2 ≤ h
      ∧ BlipProc.saveImageDims w h = (w * 2000 / max w h, h * 2000 / max w h)
      ∧ CaptionsRoute.directSaveDims w h = (w, h) := by
  have hcond : w > 2000 ∨ h > 2000 := hbig
  have hmax2000 : 2000 ≤ max w h := by
    rcases hbig with h1 | h1
    · exact le_trans (by omega) (le_max_left w h)
    · exact le_trans (by omega) (le_max_right w h)
  have hkey : BlipProc.saveImageDims w h
      = (w * 2000 / max w h, h * 2000 / max w h) := by
    simp only [BlipProc.saveImageDims, if_pos hcond]
  rw [hkey]
  refine ⟨?_, ?_, ?_, ?_, rfl, rfl⟩
  · exact Nat.div_le_of_le_mul (Nat.mul_le_mul_right 2000 (le_max_left w h))
  · exact Nat.div_le_of_le_mul (Nat.mul_le_mul_right 2000 (le_max_right w h))
  · exact Nat.div_le_of_le_mul
      (le_trans (Nat.mul_le_mul_left w hmax2000) (le_of_eq (Nat.mul_comm w (max w h))))
  · exact Nat.div_le_of_le_mul
      (le_trans (Nat.mul_le_mul_left h hmax2000) (le_of_eq (Nat.mul_comm h (max w h))))

/-- Witness of `C8_blip_downsample` at a 3000×1000 upload, which is rewritten
as 2000×666. -/
theorem C8_blip_downsample_witness :
    ((0 : Nat) < 3000 ∧ (0 : Nat) < 1000 ∧ (2000 : Nat) < 3000)
      ∧ ((BlipProc.saveImageDims 3000 1000).1 ≤ 2000
        ∧ (BlipProc.saveImageDims 3000 1000).2 ≤ 2000
        ∧ (BlipProc.saveImageDims 3000 1000).1 ≤ 3000
        ∧ (BlipProc.saveImageDims 3000 1000).2 ≤ 1000
        ∧ BlipProc.saveImageDims 3000 1000
            = (3000 * 2000 / max 3000 1000, 1000 * 2000 / max 3000 1000)
        ∧ CaptionsRoute.directSaveDims 3000 1000 = (3000, 1000)) :=
  ⟨⟨by decide, by decide, by decide⟩,
    C8_blip_downsample 3000 1000 (by decide) (by decide) (Or.inl (by decide))⟩

/-- C9 fails as stated: `update_post` never re-parses the bearer identity —
with the malformed identity "abc" the raw string reaches the integer-keyed
user lookup, which under the configured PostgreSQL backend raises a DataError
that surfaces as an unhandled HTTP 500 server error, not 401; `get_posts`
(which does re-parse) answers 401. -/
theorem C9_counterexample :
    Posts.updatePostHandler ("abc".toList) [1] true = 500
      ∧ Posts.getPostsHandler ("abc".toList) [1] = 401 := ⟨rfl, rfl⟩

/-- C9 (amended): the caption-generation, post-list, post-get and post-create
endpoints re-parse the token identity to an integer and answer 401 on a
malformed identity; the post-update and post-delete endpoints pass the raw
identity to the user lookup with no error handling, so under the configured
PostgreSQL backend a malformed identity raises a database error that surfaces
as an unhandled 500 server error instead. -/
theorem C9_identity_parsing (s : Str) (users : List Int) (found : Bool)
    (h : pyIntParse s = none) :
    CaptionsRoute.generateCaptionHandler s users = 401
      ∧ Posts.getPostsHandler s users = 401
      ∧ Posts.getPostHandler s users found = 401
      ∧ Posts.createPostHandler s users found = 401
      ∧ Posts.updatePostHandler s users found = 500
      ∧ Posts.deletePostHandler s users found = 500 := by
  simp [CaptionsRoute.generateCaptionHandler, Posts.getPostsHandler,
    Posts.getPostHandler, Posts.createPostHandler, Posts.updatePostHandler,
    Posts.deletePostHandler, h]

/-- Witness of `C9_identity_parsing` at the malformed identity "abc". -/
theorem C9_identity_parsing_witness :
    pyIntParse ("abc".toList) = none
      ∧ (CaptionsRoute.generateCaptionHandler ("abc".toList) [1] = 401
        ∧ Posts.getPostsHandler ("abc".toList) [1] = 401
        ∧ Posts.getPostHandler ("abc".toList) [1] true = 401
        ∧ Posts.createPostHandler ("abc".toList) [1] true = 401
        ∧ Posts.updatePostHandler ("abc".toList) [1] true = 500
        ∧ Posts.deletePostHandler ("abc".toList) [1] true = 500) :=
  ⟨rfl, C9_identity_parsing ("abc".toList) [1] true rfl⟩

/-- C10: normalizing an artifact never touches the original file.  On a decode
or processing failure every converter returns the original input path with
nothing written; on success the single written file sits at the returned path,
whose basename is the original stem with `_instagram` appended (the direct
poster also switching the extension to `.jpg`, the simple/BLIP versions
keeping it), and that path always differs from the input path. -/
theorem C10_never_overwrites_original (uploadFolder path : Str) (img : PILImage) :
    DirectPoster.convertToInstagramSize none path = (path, none)
      ∧ SimpleProc.convertToInstagramSize uploadFolder none path = (path, none)
      ∧ BlipProc.convertToInstagramSize uploadFolder none path = (path, none)
      ∧ (DirectPoster.convertToInstagramSize (some img) path).2.map Prod.fst
          = some (DirectPoster.convertToInstagramSize (some img) path).1
      ∧ basenameL (DirectPoster.convertToInstagramSize (some img) path).1
          = (splitExtL (basenameL path)).1 ++ "_instagram.jpg".toList
      ∧ (DirectPoster.convertToInstagramSize (some img) path).1 ≠ path
      ∧ (SimpleProc.convertToInstagramSize uploadFolder (some img) path).2.map Prod.fst
          = some (SimpleProc.convertToInstagramSize uploadFolder (some img) path).1
      ∧ basenameL (SimpleProc.convertToInstagramSize uploadFolder (some img) path).1
          = (splitExtL (basenameL path)).1 ++ "_instagram".toList
              ++ (splitExtL (basenameL path)).2
      ∧ (SimpleProc.convertToInstagramSize uploadFolder (some img) path).1 ≠ path := by
  have hbase := splitExtL_append (basenameL path)
  have hlit1 : ∀ c ∈ "_instagram.jpg".toList, c ≠ '/' := by decide
  have hlit2 : ∀ c ∈ "_instagram".toList, c ≠ '/' := by decide
  have hmem1 : ∀ c ∈ (splitExtL (basenameL path)).1 ++ "_instagram.jpg".toList,
      c ≠ '/' := by
    intro c hc
    rcases List.mem_append.mp hc with hc | hc
    · exact mem_basenameL (show c ∈ basenameL path by
        rw [← hbase]; exact List.mem_append_left _ hc)
    · exact hlit1 c hc
  have hmem2 : ∀ c ∈ (splitExtL (basenameL path)).1 ++ "_instagram".toList
      ++ (splitExtL (basenameL path)).2, c ≠ '/' := by
    intro c hc
    rcases List.mem_append.mp hc with hc | hc
    · rcases List.mem_append.mp hc with hc | hc
      · exact mem_basenameL (show c ∈ basenameL path by
          rw [← hbase]; exact List.mem_append_left _ hc)
      · exact hlit2 c hc
    · exact mem_basenameL (show c ∈ basenameL path by
        rw [← hbase]; exact List.mem_append_right _ hc)
  have hne1 : (splitExtL (basenameL path)).1 ++ "_instagram.jpg".toList
      ≠ basenameL path := by
    intro h
    exact instagramFilenameJpg_ne (splitExtL_ext_shape (basenameL path))
      (h.trans hbase.symm)
  have hne2 : (splitExtL (basenameL path)).1 ++ "_instagram".toList
      ++ (splitExtL (basenameL path)).2 ≠ basenameL path := by
    intro h
    rw [List.append_assoc] at h
    exact instagramFilenameExt_ne (h.trans hbase.symm)
  refine ⟨rfl, rfl, rfl, rfl, ?_, ?_, rfl, ?_, ?_⟩
  · exact basenameL_pyJoin hmem1
  · exact pyJoin_ne_of_basename hmem1 hne1
  · exact basenameL_pyJoin hmem2
  · exact pyJoin_ne_of_basename hmem2 hne2
